import Mathlib

/-!
# Verification of the resalign-ai analysis pipeline

A shallow embedding of the résumé/JD matching engine
(`backend/api/services/matcher.py`), the scoring and classification service
(`backend/api/services/scorer.py`) and the SSE analysis orchestrator
(`backend/api/routes/analyze.py`), together with theorems settling the
specification claims about them.

Python floats are embedded as rationals (`ℚ`), Python sets of strings as
`Finset String`, and the orchestrator's external collaborators (record store,
document converter, text-generation services) as an explicit environment of
`Except`-valued responses.
-/

namespace ResAlign

/-! ## Python string primitives -/

/-- The whitespace characters stripped by Python `str.strip()` (ASCII part). -/
def isPySpace (c : Char) : Bool :=
  c == ' ' || c == '\t' || c == '\n' || c == '\r' || c == '\x0b' || c == '\x0c'

/-- Python `str.strip()`: drop leading and trailing whitespace. -/
def pyStrip (s : String) : String :=
  String.mk (((s.data.dropWhile isPySpace).reverse.dropWhile isPySpace).reverse)

/-- Python `str.lower()` (ASCII case folding). -/
def pyLower (s : String) : String :=
  String.mk (s.data.map Char.toLower)

/-- Whether `n` occurs as a contiguous sublist of `h` (substring test on
character lists). -/
def containsAux (n : List Char) : List Char → Bool
  | [] => n.isEmpty
  | c :: t => n.isPrefixOf (c :: t) || containsAux n t

/-- Python `needle in hay` on strings: substring containment. -/
def pyInStr (needle hay : String) : Bool :=
  containsAux needle.data hay.data

/-- Python `" ".join(items)`. -/
def pyJoin (items : List String) : String :=
  String.intercalate " " items

/-! ## Matcher helper methods (`FastMatcherService` statics) -/

/-- `FastMatcherService._normalize_list`: lowercase/strip every truthy item
into a set. -/
def normalizeList (items : List String) : Finset String :=
  ((items.filter (fun s => s ≠ "")).map (fun s => pyStrip (pyLower s))).toFinset

/-- Term lists of `FastMatcherService._normalize_degree`, in source order. -/
def phdTerms : List String := ["phd", "ph.d", "doctoral", "doctorate"]

def mastersTerms : List String := ["master", "ms", "m.s", "mba", "ma", "m.a"]

def bachelorsTerms : List String := ["bachelor", "bs", "b.s", "ba", "b.a"]

def associateTerms : List String := ["associate", "as", "a.s"]

/-- `FastMatcherService._normalize_degree`: first substring rule set that
matches wins; when no rule matches the lowercased input itself is returned. -/
def normalizeDegree (degreeText : String) : String :=
  let degreeLower := pyLower degreeText
  if phdTerms.any (fun t => pyInStr t degreeLower) then "phd"
  else if mastersTerms.any (fun t => pyInStr t degreeLower) then "masters"
  else if bachelorsTerms.any (fun t => pyInStr t degreeLower) then "bachelors"
  else if associateTerms.any (fun t => pyInStr t degreeLower) then "associate"
  else degreeLower

/-- One attempt of the regex `(\d+)\+?\s*(?:years?|yrs?)` anchored at the head
of `cs`: a nonempty digit run, an optional `+`, whitespace, then a prefix
`year` or `yr`. Returns the digit group's value. -/
def matchYearsAt (cs : List Char) : Option Nat :=
  let ds := cs.takeWhile (fun c => c.isDigit)
  if ds.isEmpty then none
  else
    let rest := cs.drop ds.length
    let rest := match rest with
      | '+' :: t => t
      | r => r
    let rest := rest.dropWhile isPySpace
    if ("year".data.isPrefixOf rest || "yr".data.isPrefixOf rest) then
      some (ds.foldl (fun a c => 10 * a + (c.toNat - '0'.toNat)) 0)
    else none

/-- Leftmost match of the years regex, scanning start positions left to
right (the behaviour of `re.search`). -/
def searchYears : List Char → Option Nat
  | [] => none
  | c :: t =>
    match matchYearsAt (c :: t) with
    | some n => some n
    | none => searchYears t

/-- `FastMatcherService._extract_years_from_text`. -/
def extractYearsFromText (text : String) : ℚ :=
  match searchYears (pyLower text).data with
  | some n => (n : ℚ)
  | none => 0

/-- Python ASCII `\w`: letters, digits, underscore. -/
def isPyWordChar (c : Char) : Bool :=
  c.isAlphanum || c == '_'

theorem length_dropWhile_le (p : Char → Bool) (l : List Char) :
    (l.dropWhile p).length ≤ l.length := by
  induction l with
  | nil => simp [List.dropWhile]
  | cons c t ih =>
    by_cases h : p c
    · simp only [List.dropWhile, h]
      exact Nat.le_trans ih (Nat.le_succ _)
    · simp [List.dropWhile, h]

/-- Maximal runs of word characters in a character list. -/
def wordRuns : List Char → List (List Char)
  | [] => []
  | c :: t =>
    if isPyWordChar c then
      (c :: t.takeWhile isPyWordChar) :: wordRuns (t.dropWhile isPyWordChar)
    else wordRuns t
termination_by l => l.length
decreasing_by
  · exact Nat.lt_succ_of_le (length_dropWhile_le _ _)
  · exact Nat.lt_succ_of_le (Nat.le_refl _)

/-- Matches of `re.findall(r"\b[a-z]{3,}\b", s)` after lowercasing: the
maximal word-character runs made only of `a`-`z` and of length at least 3
(a shorter run bordered by a word character fails the `\b` boundary). -/
def extractWordsGe3 (s : String) : List String :=
  (wordRuns (pyLower s).data).filterMap (fun run =>
    if 3 ≤ run.length ∧ run.all (fun c => 'a' ≤ c ∧ c ≤ 'z') then
      some (String.mk run)
    else none)

/-- Stop words of `FastMatcherService._extract_keywords_from_list`. -/
def stopWords : Finset String :=
  {"the", "and", "for", "with", "this", "that", "from", "were", "been"}

/-- `FastMatcherService._extract_keywords_from_list`. -/
def extractKeywordsFromList (items : List String) : Finset String :=
  items.foldl
    (fun acc item =>
      acc ∪ ((extractWordsGe3 item).filter (fun w => w ∉ stopWords)).toFinset)
    ∅

/-- Fixed vocabulary of `FastMatcherService._extract_experience_keywords`. -/
def experienceKeywordVocab : Finset String :=
  {"engineer", "developer", "manager", "lead", "architect", "analyst",
   "designer", "consultant", "specialist", "scientist"}

/-- `FastMatcherService._extract_experience_keywords`. -/
def extractExperienceKeywords (text : String) : Finset String :=
  experienceKeywordVocab.filter (fun kw => pyInStr kw text = true)

/-- Fixed vocabulary of `FastMatcherService._extract_cert_keywords`. -/
def certKeywordVocab : Finset String :=
  {"aws", "azure", "gcp", "cissp", "ccna", "pmp", "scrum", "certified",
   "certification", "cpa", "cfa", "comptia"}

/-- `FastMatcherService._extract_cert_keywords`. -/
def extractCertKeywords (text : String) : Finset String :=
  certKeywordVocab.filter (fun kw => pyInStr kw text = true)

/-- Fixed vocabulary of `FastMatcherService._extract_soft_skill_keywords`. -/
def softSkillVocab : Finset String :=
  {"communication", "leadership", "teamwork", "collaboration",
   "problem solving", "analytical", "creative", "adaptable",
   "time management", "organized", "detail-oriented", "interpersonal",
   "presentation", "negotiation"}

/-- `FastMatcherService._extract_soft_skill_keywords`. -/
def extractSoftSkillKeywords (text : String) : Finset String :=
  softSkillVocab.filter (fun kw => pyInStr kw text = true)

/-! ## Data model (`backend/api/_types.py`)

Pydantic `Optional` fields become `Option`, `float` becomes `ℚ`, `int`
becomes `ℤ`. -/

structure Qualifications where
  education : Option String
  experience : Option String
  skills : Option (List String)
  deriving DecidableEq

structure SalaryRange where
  currency : Option String
  lower_limit : Option Int
  upper_limit : Option Int
  deriving DecidableEq

structure Benefits where
  relocation_assistance : Bool
  equity : Bool
  pto : Bool
  health : Bool
  dental : Bool
  vision : Bool
  four_oh_one_k : Bool
  free_lunch : Bool
  other : String
  deriving DecidableEq

structure JDOtherInformation where
  bonus_qualifications : List String
  salary_range : Option SalaryRange
  benefits : Benefits
  deriving DecidableEq

structure JDStructuredData where
  job_title : String
  company_name : String
  location : List String
  employment_type : String
  location_type : String
  job_duties : List String
  required_qualifications : Qualifications
  preferred_qualifications : Qualifications
  other_information : JDOtherInformation
  deriving DecidableEq

structure ContactInformation where
  name : String
  email : String
  phone : String
  address : String
  linkedin : String
  github : String
  portfolio : String
  deriving DecidableEq

structure Education where
  degree : String
  major : String
  school : String
  graduation_date : String
  gpa : Option ℚ
  relevant_coursework : Option (List String)
  deriving DecidableEq

structure Experience where
  employer : String
  position : String
  duration : ℚ
  responsibilities : List String
  achievements : List String
  technologies_used : List String
  team_size_managed : Int
  deriving DecidableEq

structure Internship where
  company : String
  title : String
  start_date : String
  end_date : Option String
  description : String
  tech_stack : List String
  outcomes : List String
  deriving DecidableEq

structure Project where
  name : String
  start_date : String
  end_date : Option String
  description : String
  tech_stack : List String
  role : String
  outcomes : List String
  deriving DecidableEq

structure Certification where
  name : String
  issuing_organization : String
  issue_date : String
  expiration_date : String
  credential_id : String
  credential_url : String
  deriving DecidableEq

structure ResearchAndPublication where
  title : String
  url : String
  deriving DecidableEq

structure ResumeOtherInformation where
  awards_and_achievements : List String
  research_and_publications : List ResearchAndPublication
  volunteering : String
  leadership : String
  soft_skills : List String
  languages : List String
  deriving DecidableEq

structure ResumeStructuredData where
  summary : String
  job_title : String
  contact_information : ContactInformation
  education : List Education
  experience : List Experience
  internships : List Internship
  projects : List Project
  certifications : List Certification
  other_information : ResumeOtherInformation
  technical_skills : List String
  deriving DecidableEq

/-! ## Category match results (the dicts returned per category) -/

structure SkillsMatchResult where
  matched : ℕ
  total_required : ℕ
  match_percentage : ℚ
  matched_items : List String
  missing_required : List String
  deriving DecidableEq

structure ExperienceMatchResult where
  matched : ℕ
  total_required : ℕ
  match_percentage : ℚ
  years_experience : ℚ
  years_required : ℚ
  years_preferred : ℚ
  meets_minimum : Bool
  relevant_roles : ℕ
  deriving DecidableEq

structure EducationMatchResult where
  matched : ℕ
  total_required : ℕ
  match_percentage : ℚ
  degree_match : Bool
  certifications_matched : ℕ
  certifications_count : ℕ
  deriving DecidableEq

structure AchievementsMatchResult where
  matched : ℕ
  total_required : ℕ
  match_percentage : ℚ
  achievements_count : ℕ
  matched_items : List String
  deriving DecidableEq

structure SoftSkillsMatchResult where
  matched : ℕ
  total_required : ℕ
  match_percentage : ℚ
  matched_items : List String
  resume_soft_skills_count : ℕ
  deriving DecidableEq

/-! ## The five category matchers (`FastMatcherService`) -/

/-- The résumé-side skill set of `_match_skills`: declared technical skills
plus technologies from every experience, internship and project entry. -/
def resumeSkillsSet (resume : ResumeStructuredData) : Finset String :=
  let s := normalizeList resume.technical_skills
  let s := resume.experience.foldl
    (fun acc e => acc ∪ normalizeList e.technologies_used) s
  let s := resume.internships.foldl
    (fun acc i => acc ∪ normalizeList i.tech_stack) s
  resume.projects.foldl (fun acc p => acc ∪ normalizeList p.tech_stack) s

/-- JD required skills, normalized. -/
def jdRequiredSkillsSet (jd : JDStructuredData) : Finset String :=
  normalizeList (jd.required_qualifications.skills.getD [])

/-- JD preferred skills, normalized. -/
def jdPreferredSkillsSet (jd : JDStructuredData) : Finset String :=
  normalizeList (jd.preferred_qualifications.skills.getD [])

/-- `FastMatcherService._match_skills`. -/
def matchSkills (resume : ResumeStructuredData) (jd : JDStructuredData) :
    SkillsMatchResult :=
  let resumeSkills := resumeSkillsSet resume
  let jdRequiredSkills := jdRequiredSkillsSet jd
  let jdPreferredSkills := jdPreferredSkillsSet jd
  let allJdSkills := jdRequiredSkills ∪ jdPreferredSkills
  let totalMatched := resumeSkills ∩ allJdSkills
  let totalRequired := if allJdSkills.Nonempty then allJdSkills.card else 1
  let matchedCount := totalMatched.card
  { matched := matchedCount
    total_required := totalRequired
    match_percentage :=
      if 0 < totalRequired then (matchedCount : ℚ) / (totalRequired : ℚ) * 100
      else 0
    matched_items := totalMatched.sort (· ≤ ·)
    missing_required := (jdRequiredSkills \ resumeSkills).sort (· ≤ ·) }

/-- `FastMatcherService._match_experience`. -/
def matchExperience (resume : ResumeStructuredData) (jd : JDStructuredData) :
    ExperienceMatchResult :=
  let totalYears := (resume.experience.map (·.duration)).sum
  let requiredYears :=
    extractYearsFromText (jd.required_qualifications.experience.getD "")
  let preferredYears :=
    extractYearsFromText (jd.preferred_qualifications.experience.getD "")
  let resumePositions : Finset String :=
    ((resume.experience.map (fun e => pyLower e.position)) ++
      (resume.internships.map (fun i => pyLower i.title))).toFinset
  let jdDutiesText := pyLower (pyJoin jd.job_duties)
  let experienceKeywords := extractExperienceKeywords jdDutiesText
  let matchedKeywords :=
    (experienceKeywords.filter
      (fun kw => ∃ pos ∈ resumePositions, pyInStr kw pos = true)).card
  let yearsMatch : Bool :=
    if requiredYears ≠ 0 then decide (requiredYears ≤ totalYears) else true
  let preferredMatch : Bool :=
    if preferredYears ≠ 0 then decide (preferredYears ≤ totalYears) else true
  let matched := (if yearsMatch then 1 else 0) +
    (if preferredMatch then 1 else 0) + (if 0 < matchedKeywords then 1 else 0)
  { matched := matched
    total_required := 3
    match_percentage := (matched : ℚ) / 3 * 100
    years_experience := totalYears
    years_required := requiredYears
    years_preferred := preferredYears
    meets_minimum := yearsMatch
    relevant_roles := matchedKeywords }

/-- `FastMatcherService._match_education_certs`. -/
def matchEducationCerts (resume : ResumeStructuredData)
    (jd : JDStructuredData) : EducationMatchResult :=
  let resumeDegrees : Finset String :=
    (resume.education.map (fun e => normalizeDegree e.degree)).toFinset
  let jdRequiredDegree :=
    normalizeDegree (jd.required_qualifications.education.getD "")
  let _jdPreferredDegree :=
    normalizeDegree (jd.preferred_qualifications.education.getD "")
  let degreeMatch : Bool :=
    if jdRequiredDegree ≠ "" then decide (jdRequiredDegree ∈ resumeDegrees)
    else decide (0 < resumeDegrees.card)
  let resumeCertNames := normalizeList (resume.certifications.map (·.name))
  let jdText := pyJoin
    [jd.required_qualifications.education.getD "",
     jd.preferred_qualifications.education.getD "",
     pyJoin jd.other_information.bonus_qualifications]
  let jdCertKeywords := extractCertKeywords (pyLower jdText)
  let matchedCerts :=
    (jdCertKeywords.filter
      (fun kw => ∃ n ∈ resumeCertNames, pyInStr kw n = true)).card
  let totalRequired := 1 + jdCertKeywords.card
  let matched := (if degreeMatch then 1 else 0) + matchedCerts
  { matched := matched
    total_required := totalRequired
    match_percentage :=
      if 0 < totalRequired then (matched : ℚ) / (totalRequired : ℚ) * 100
      else 0
    degree_match := degreeMatch
    certifications_matched := matchedCerts
    certifications_count := resume.certifications.length }

/-- `FastMatcherService._match_achievements`. -/
def matchAchievements (resume : ResumeStructuredData)
    (jd : JDStructuredData) : AchievementsMatchResult :=
  let a := resume.experience.foldl (fun acc e => acc ++ e.achievements) []
  let a := resume.internships.foldl (fun acc i => acc ++ i.outcomes) a
  let a := resume.projects.foldl (fun acc p => acc ++ p.outcomes) a
  let resumeAchievements :=
    a ++ resume.other_information.awards_and_achievements
  let achievementKeywords := extractKeywordsFromList resumeAchievements
  let jdDutiesKeywords := extractKeywordsFromList jd.job_duties
  let matchedKeywords := achievementKeywords ∩ jdDutiesKeywords
  let totalRequired :=
    if jdDutiesKeywords.Nonempty then jdDutiesKeywords.card else 1
  let matched := matchedKeywords.card
  { matched := matched
    total_required := totalRequired
    match_percentage :=
      if 0 < totalRequired then (matched : ℚ) / (totalRequired : ℚ) * 100
      else 0
    achievements_count := resumeAchievements.length
    matched_items := matchedKeywords.sort (· ≤ ·) }

/-- `FastMatcherService._match_soft_skills`. -/
def matchSoftSkills (resume : ResumeStructuredData)
    (jd : JDStructuredData) : SoftSkillsMatchResult :=
  let s := normalizeList resume.other_information.soft_skills
  let s :=
    if resume.other_information.leadership ≠ "" then insert "leadership" s
    else s
  let resumeSoftSkills :=
    if resume.experience.any (fun e => decide (0 < e.team_size_managed)) then
      insert "leadership" (insert "team management" s)
    else s
  let jdText := pyLower (pyJoin
    [pyJoin jd.job_duties,
     jd.required_qualifications.experience.getD "",
     jd.preferred_qualifications.experience.getD ""])
  let jdSoftSkills := extractSoftSkillKeywords jdText
  let matchedSkills := resumeSoftSkills ∩ jdSoftSkills
  let totalRequired := if jdSoftSkills.Nonempty then jdSoftSkills.card else 1
  let matched := matchedSkills.card
  { matched := matched
    total_required := totalRequired
    match_percentage :=
      if 0 < totalRequired then (matched : ℚ) / (totalRequired : ℚ) * 100
      else 0
    matched_items := matchedSkills.sort (· ≤ ·)
    resume_soft_skills_count := resumeSoftSkills.card }

/-- The batch result of `FastMatcherService.calculate_matches`. -/
structure MatchResults where
  skills_match : SkillsMatchResult
  experience_alignment : ExperienceMatchResult
  education_and_certifications : EducationMatchResult
  achievements_and_outcomes : AchievementsMatchResult
  soft_skills_and_culture : SoftSkillsMatchResult
  deriving DecidableEq

/-- `FastMatcherService.calculate_matches`. -/
def calculateMatches (resume : ResumeStructuredData)
    (jd : JDStructuredData) : MatchResults :=
  { skills_match := matchSkills resume jd
    experience_alignment := matchExperience resume jd
    education_and_certifications := matchEducationCerts resume jd
    achievements_and_outcomes := matchAchievements resume jd
    soft_skills_and_culture := matchSoftSkills resume jd }

/-! ## Scoring and classification (`backend/api/services/scorer.py`) -/

/-- `FitClassification` enum of `backend/api/types/analysis.py`. -/
inductive FitClassification where
  | GOOD_FIT
  | PARTIAL_FIT
  | NOT_FIT
  deriving DecidableEq

/-- The string value of each enum member. -/
def FitClassification.value : FitClassification → String
  | .GOOD_FIT => "GOOD_FIT"
  | .PARTIAL_FIT => "PARTIAL_FIT"
  | .NOT_FIT => "NOT_FIT"

/-- The fixed `CATEGORY_WEIGHTS` table of `scorer.py`. -/
def CATEGORY_WEIGHTS : List (String × ℚ) :=
  [("skills_match", 35 / 100),
   ("experience_alignment", 25 / 100),
   ("education_and_certifications", 20 / 100),
   ("achievements_and_outcomes", 10 / 100),
   ("soft_skills_and_culture", 10 / 100)]

/-- `ScoringService.calculate_scores`: the five category percentages plus the
weighted `overall_score` entry. -/
def calculateScores (resume : ResumeStructuredData)
    (jd : JDStructuredData) : List (String × ℚ) :=
  let matchData := calculateMatches resume jd
  let scores : List (String × ℚ) :=
    [("skills_match", matchData.skills_match.match_percentage),
     ("experience_alignment", matchData.experience_alignment.match_percentage),
     ("education_and_certifications",
       matchData.education_and_certifications.match_percentage),
     ("achievements_and_outcomes",
       matchData.achievements_and_outcomes.match_percentage),
     ("soft_skills_and_culture",
       matchData.soft_skills_and_culture.match_percentage)]
  let overallScore :=
    (CATEGORY_WEIGHTS.map (fun cw => ((scores.lookup cw.1).getD 0) * cw.2)).sum
  scores ++ [("overall_score", overallScore)]

/-- `ScoringService.determine_fit_classification`. -/
def determineFitClassification (overallScore : ℚ) : FitClassification :=
  if 80 ≤ overallScore then .GOOD_FIT
  else if 60 ≤ overallScore then .PARTIAL_FIT
  else .NOT_FIT

/-! ## Analysis orchestrator (`backend/api/routes/analyze.py`)

The SSE generator `generate_stream` is embedded as a pure function from an
environment of collaborator responses to the list of emitted events and the
list of external operations performed, in order. -/

/-- The duck-typed learning-resource payload serialized into the report. -/
structure LearningResource where
  title : String
  description : String
  category : String
  resource_type : String
  url : String
  estimated_hours : ℚ
  deriving DecidableEq

/-- The report JSON persisted on an `analyses` row. -/
structure Report where
  overall_score : ℚ
  fit_classification : String
  fit_rationale : String
  category_scores : List (String × ℚ)
  recommendations : List String
  learning_resources : List LearningResource
  deriving DecidableEq

/-- A row of the `analyses` table (fields read by the route). -/
structure AnalysisRow where
  id : String
  status : String
  report : Option Report
  deriving DecidableEq

/-- A row of the `resumes` table (fields read by the route). -/
structure ResumeRow where
  extracted_data : ResumeStructuredData
  supabase_storage_path : Option String
  deriving DecidableEq

/-- A row of the `job_descriptions` table (fields read by the route). -/
structure JDRow where
  extracted_data : JDStructuredData
  deriving DecidableEq

/-- Payload of a terminal `complete` SSE event. -/
structure CompleteData where
  analysis_id : String
  overall_score : ℚ
  fit_classification : String
  fit_rationale : String
  category_scores : List (String × ℚ)
  recommendations : List String
  learning_resources : List LearningResource
  progress : ℕ
  message : String
  deriving DecidableEq

/-- The SSE messages yielded by `generate_stream`; `done` is the
`data: [DONE]` stream terminator. -/
inductive Event where
  | progress (stage : String) (progressPct : ℕ) (message : String)
  | complete (data : CompleteData)
  | errorEvent (error : String) (message : String)
  | done
  deriving DecidableEq

/-- External operations performed by the pipeline, in order. -/
inductive Op where
  | selectAnalyses
  | insertAnalysis
  | selectResumes
  | selectJds
  | downloadConvert
  | calcScores
  | getMatchDetails
  | genRationale
  | genRecommendations
  | genLearningResources
  | updateAnalysis (status : String)
  deriving DecidableEq

/-- Responses of every external collaborator consulted by one run:
`Except.error` models a raised exception; for the insert, `Except.ok none`
models a falsy (empty) result. -/
structure Env where
  existingAnalyses : List AnalysisRow
  insertResult : Except String (Option AnalysisRow)
  resumesResult : Except String (List ResumeRow)
  jdsResult : Except String (List JDRow)
  markdownResult : Except String String
  rationaleResult : Except String String
  recsResult : Except String (List String)
  learningResult : Except String (List LearningResource)
  updateCompletedResult : Except String Unit
  updateErrorResult : Except String Unit

/-- The five staged progress events, with the literal payloads of the
source. -/
def progressStarting : Event :=
  .progress "starting_analysis" 30 "Starting Analysis"

def progressCalculating : Event :=
  .progress "calculating_scores" 60 "Calculating Scores"

def progressAssessing : Event :=
  .progress "assessing_job_fit" 65 "Assessing Job Fit"

def progressGenerating : Event :=
  .progress "generating_recommendations" 80
    "Generating Personalized Recommendations"

def progressSaving : Event := .progress "saving" 90 "Saving Results"

/-- User-facing message of the terminal error event. -/
def analysisFailedMessage : String := "Analysis failed. Please try again."

/-- The `except` block of `generate_stream`: best-effort error-status update
when a record id exists, then the terminal error event and terminator. -/
def fatalExit (events : List Event) (ops : List Op)
    (analysisId : Option String) (e : String) : List Event × List Op :=
  let ops := match analysisId with
    | some _ => ops ++ [Op.updateAnalysis "error"]
    | none => ops
  (events ++ [Event.errorEvent e analysisFailedMessage, Event.done], ops)

/-- The synthetic completion payload reconstructed from a stored report on
the cache-hit path. -/
def cacheCompleteData (analysisId : String) (report : Report) :
    CompleteData :=
  { analysis_id := analysisId
    overall_score := report.overall_score
    fit_classification := report.fit_classification
    fit_rationale := report.fit_rationale
    category_scores := report.category_scores
    recommendations := report.recommendations
    learning_resources := report.learning_resources
    progress := 100
    message := "Analysis complete!" }

/-- The non-cache-hit body of `generate_stream`, from the
`starting_analysis` event onward. -/
def runFreshAnalysis (env : Env) : List Event × List Op :=
  let events0 := [progressStarting]
  let ops0 := [Op.selectAnalyses, Op.insertAnalysis]
  match env.insertResult with
  | .error e => fatalExit events0 ops0 none e
  | .ok none => fatalExit events0 ops0 none "Failed to create analysis record"
  | .ok (some analysisRecord) =>
    let analysisId := analysisRecord.id
    match env.resumesResult with
    | .error e =>
      fatalExit events0 (ops0 ++ [Op.selectResumes]) (some analysisId) e
    | .ok resumes =>
      let ops1 := ops0 ++ [Op.selectResumes, Op.selectJds]
      match env.jdsResult with
      | .error e => fatalExit events0 ops1 (some analysisId) e
      | .ok jds =>
        match resumes, jds with
        | resumeRow :: _, jdRow :: _ =>
          let resume := resumeRow.extracted_data
          let jd := jdRow.extracted_data
          let ops2 := match resumeRow.supabase_storage_path with
            | some _ => ops1 ++ [Op.downloadConvert]
            | none => ops1
          let _resumeMarkdown : String :=
            match resumeRow.supabase_storage_path with
            | some _ =>
              match env.markdownResult with
              | .ok text => text
              | .error _ => ""
            | none => ""
          let events1 := events0 ++ [progressCalculating]
          let scores := calculateScores resume jd
          let overallScore := (scores.lookup "overall_score").getD 0
          let fitClassification := determineFitClassification overallScore
          let _matchDetails := calculateMatches resume jd
          let ops3 := ops2 ++ [Op.calcScores, Op.getMatchDetails]
          let events2 := events1 ++ [progressAssessing]
          let fitRationale := match env.rationaleResult with
            | .ok text => text
            | .error _ => ""
          let ops4 := ops3 ++ [Op.genRationale]
          let events3 := events2 ++ [progressGenerating]
          let recommendationsText := match env.recsResult with
            | .ok items => items
            | .error _ => []
          let learningResources := match env.learningResult with
            | .ok items => items
            | .error _ => []
          let ops5 := ops4 ++ [Op.genRecommendations, Op.genLearningResources]
          let events4 := events3 ++ [progressSaving]
          let ops6 := ops5 ++ [Op.updateAnalysis "completed"]
          match env.updateCompletedResult with
          | .error e => fatalExit events4 ops6 (some analysisId) e
          | .ok _ =>
            let completeData : CompleteData :=
              { analysis_id := analysisId
                overall_score := overallScore
                fit_classification := fitClassification.value
                fit_rationale := fitRationale
                category_scores :=
                  scores.filter (fun cs => cs.1 ≠ "overall_score")
                recommendations := recommendationsText
                learning_resources := learningResources
                progress := 100
                message := "Analysis complete!" }
            (events4 ++ [Event.complete completeData, Event.done], ops6)
        | _, _ =>
          fatalExit events0 ops1 (some analysisId)
            "Resume or JD not found in database"

/-- `generate_stream`: cache check first, otherwise the fresh run. -/
def generateStream (env : Env) : List Event × List Op :=
  match env.existingAnalyses with
  | existingAnalysis :: _ =>
    match existingAnalysis.report with
    | some report =>
      if existingAnalysis.status = "completed" then
        ([Event.complete (cacheCompleteData existingAnalysis.id report),
          Event.done],
         [Op.selectAnalyses])
      else runFreshAnalysis env
    | none => runFreshAnalysis env
  | [] => runFreshAnalysis env

/-- Whether the pre-run lookup short-circuits: the first returned record is
`completed` with a non-empty report. -/
def cacheHit (env : Env) : Bool :=
  match env.existingAnalyses with
  | existingAnalysis :: _ =>
    existingAnalysis.status == "completed" && existingAnalysis.report.isSome
  | [] => false

/-! ## Concrete fixtures used by witnesses and counterexamples -/

def emptyBenefits : Benefits :=
  ⟨false, false, false, false, false, false, false, false, ""⟩

def emptyJDOtherInformation : JDOtherInformation :=
  ⟨[], none, emptyBenefits⟩

def emptyQualifications : Qualifications := ⟨none, none, none⟩

def emptyJD : JDStructuredData :=
  ⟨"", "", [], "", "", [], emptyQualifications, emptyQualifications,
   emptyJDOtherInformation⟩

def emptyContact : ContactInformation := ⟨"", "", "", "", "", "", ""⟩

def emptyResumeOtherInformation : ResumeOtherInformation :=
  ⟨[], [], "", "", [], []⟩

def emptyResume : ResumeStructuredData :=
  ⟨"", "", emptyContact, [], [], [], [], [], emptyResumeOtherInformation, []⟩

/-- The résumé of the spec's skills-match example: declared skills
`{"python", "react"}`, everything else empty. -/
def exampleResume : ResumeStructuredData :=
  { emptyResume with technical_skills := ["python", "react"] }

/-- The JD of the spec's skills-match example: required skills
`{"python", "aws"}`, preferred skills `{"react"}`, everything else empty. -/
def exampleJD : JDStructuredData :=
  { emptyJD with
    required_qualifications := ⟨none, none, some ["python", "aws"]⟩
    preferred_qualifications := ⟨none, none, some ["react"]⟩ }

/-! ## Claim C1 — skills-match example and general formulas -/

/-- The percentage field of `_match_skills` in terms of its own matched and
total counts (definitional). -/
theorem matchSkills_percentage_def (resume : ResumeStructuredData)
    (jd : JDStructuredData) :
    (matchSkills resume jd).match_percentage =
      if 0 < (matchSkills resume jd).total_required then
        ((matchSkills resume jd).matched : ℚ) /
          ((matchSkills resume jd).total_required : ℚ) * 100
      else 0 := rfl

/-- On the spec's example, the required-minus-résumé skill set is exactly
`{"aws"}`. -/
theorem example_missing_set :
    jdRequiredSkillsSet exampleJD \ resumeSkillsSet exampleResume =
      {"aws"} := by decide

/-- C1 counterexample: on the spec's own example (résumé skills
`{"python","react"}`, JD required `{"python","aws"}`, JD preferred
`{"react"}`), the code's JD set `required ∪ preferred` has three elements,
so `total_required` is 3 and `match_percentage` is 200/3 — not the claimed
`totalRequired = 2` and `matchPercentage = 100.0`. -/
theorem c1_skills_example_counterexample :
    (matchSkills exampleResume exampleJD).total_required ≠ 2 ∧
    (matchSkills exampleResume exampleJD).match_percentage ≠ 100 ∧
    (matchSkills exampleResume exampleJD).total_required = 3 ∧
    (matchSkills exampleResume exampleJD).match_percentage = 200 / 3 := by
  have ht : (matchSkills exampleResume exampleJD).total_required = 3 := rfl
  have hm : (matchSkills exampleResume exampleJD).matched = 2 := rfl
  have hp : (matchSkills exampleResume exampleJD).match_percentage =
      200 / 3 := by
    rw [matchSkills_percentage_def]
    norm_num [hm, ht]
  refine ⟨by norm_num [ht], by norm_num [hp], ht, hp⟩

/-- C1 amended: on the example, `_match_skills` returns `matched = 2`,
`total_required = 3`, `missing_required = ["aws"]`,
`match_percentage = 200/3` (≈ 66.7); and in general
`matched = |résumé_set ∩ jd_set|`, `totalRequired = |jd_set|` floored at 1
for `jd_set` = JD required ∪ preferred skills, and
`missingRequired = jd_required_set − résumé_set` (sorted). -/
theorem c1_skills_match_amended :
    ((matchSkills exampleResume exampleJD).matched = 2 ∧
     (matchSkills exampleResume exampleJD).total_required = 3 ∧
     (matchSkills exampleResume exampleJD).missing_required = ["aws"] ∧
     (matchSkills exampleResume exampleJD).match_percentage = 200 / 3) ∧
    ∀ (resume : ResumeStructuredData) (jd : JDStructuredData),
      (matchSkills resume jd).matched =
        (resumeSkillsSet resume ∩
          (jdRequiredSkillsSet jd ∪ jdPreferredSkillsSet jd)).card ∧
      (matchSkills resume jd).total_required =
        (if (jdRequiredSkillsSet jd ∪ jdPreferredSkillsSet jd).Nonempty then
          (jdRequiredSkillsSet jd ∪ jdPreferredSkillsSet jd).card
        else 1) ∧
      (matchSkills resume jd).missing_required =
        (jdRequiredSkillsSet jd \ resumeSkillsSet resume).sort (· ≤ ·) := by
  have ht : (matchSkills exampleResume exampleJD).total_required = 3 := rfl
  have hm : (matchSkills exampleResume exampleJD).matched = 2 := rfl
  have hmiss : (matchSkills exampleResume exampleJD).missing_required =
      ["aws"] := by
    show (jdRequiredSkillsSet exampleJD \
      resumeSkillsSet exampleResume).sort (· ≤ ·) = ["aws"]
    rw [example_missing_set]
    simp
  have hp : (matchSkills exampleResume exampleJD).match_percentage =
      200 / 3 := by
    rw [matchSkills_percentage_def]
    norm_num [hm, ht]
  refine ⟨⟨hm, ht, hmiss, hp⟩, ?_⟩
  intro resume jd
  exact ⟨rfl, rfl, rfl⟩

/-! ## Claim C2 — fit classification thresholds -/

/-- C2: the fit classification is GOOD_FIT iff the score is at least 80,
PARTIAL_FIT iff it is in [60, 80), NOT_FIT iff it is below 60, with the
stated boundary evaluations at 80, 79.999, 60 and 59.999. -/
theorem c2_fit_classification :
    (∀ s : ℚ,
      (determineFitClassification s = .GOOD_FIT ↔ 80 ≤ s) ∧
      (determineFitClassification s = .PARTIAL_FIT ↔ 60 ≤ s ∧ s < 80) ∧
      (determineFitClassification s = .NOT_FIT ↔ s < 60)) ∧
    determineFitClassification 80 = .GOOD_FIT ∧
    determineFitClassification (79999 / 1000) = .PARTIAL_FIT ∧
    determineFitClassification 60 = .PARTIAL_FIT ∧
    determineFitClassification (59999 / 1000) = .NOT_FIT := by
  refine ⟨?_, by norm_num [determineFitClassification],
    by norm_num [determineFitClassification],
    by norm_num [determineFitClassification],
    by norm_num [determineFitClassification]⟩
  intro s
  unfold determineFitClassification
  split_ifs with h1 h2
  · refine ⟨⟨fun _ => h1, fun _ => rfl⟩, ?_, ?_⟩
    · constructor
      · intro h; exact absurd h (by decide)
      · rintro ⟨-, h⟩; linarith
    · constructor
      · intro h; exact absurd h (by decide)
      · intro h; linarith
  · refine ⟨?_, ⟨fun _ => ⟨h2, lt_of_not_le h1⟩, fun _ => rfl⟩, ?_⟩
    · constructor
      · intro h; exact absurd h (by decide)
      · intro h; exact absurd h h1
    · constructor
      · intro h; exact absurd h (by decide)
      · intro h; linarith
  · refine ⟨?_, ?_, ⟨fun _ => lt_of_not_le h2, fun _ => rfl⟩⟩
    · constructor
      · intro h; exact absurd h (by decide)
      · intro h; exact absurd h h1
    · constructor
      · intro h; exact absurd h (by decide)
      · rintro ⟨h, -⟩; exact absurd h h2

/-! ## Claim C7 — category weights and the weighted overall score -/

/-- C7: the weight table assigns 0.35 / 0.25 / 0.20 / 0.10 / 0.10 to the
five categories, the weights sum to exactly 1, and `calculate_scores`
computes `overall_score` as the weighted sum of the five category scores. -/
theorem c7_weights_and_overall :
    CATEGORY_WEIGHTS.lookup "skills_match" = some (35 / 100) ∧
    CATEGORY_WEIGHTS.lookup "experience_alignment" = some (25 / 100) ∧
    CATEGORY_WEIGHTS.lookup "education_and_certifications" =
      some (20 / 100) ∧
    CATEGORY_WEIGHTS.lookup "achievements_and_outcomes" = some (10 / 100) ∧
    CATEGORY_WEIGHTS.lookup "soft_skills_and_culture" = some (10 / 100) ∧
    (CATEGORY_WEIGHTS.map Prod.snd).sum = 1 ∧
    ∀ (resume : ResumeStructuredData) (jd : JDStructuredData),
      (calculateScores resume jd).lookup "overall_score" = some
        ((matchSkills resume jd).match_percentage * (35 / 100) +
         ((matchExperience resume jd).match_percentage * (25 / 100) +
          ((matchEducationCerts resume jd).match_percentage * (20 / 100) +
           ((matchAchievements resume jd).match_percentage * (10 / 100) +
            ((matchSoftSkills resume jd).match_percentage * (10 / 100) +
             0))))) := by
  refine ⟨rfl, rfl, rfl, rfl, rfl, by norm_num [CATEGORY_WEIGHTS], ?_⟩
  intro resume jd
  rfl

/-! ## Claim C8 — degree normalization -/

/-- C8 counterexample: `_normalize_degree` does not always land in the five
values `{phd, masters, bachelors, associate, other}` — on the input
"Nursing Degree" (which contains no rule substring) it returns the
lowercased input "nursing degree", never the token "other". -/
theorem c8_degree_counterexample :
    normalizeDegree "Nursing Degree" = "nursing degree" ∧
    normalizeDegree "Nursing Degree" ∉
      (["phd", "masters", "bachelors", "associate", "other"] :
        List String) := by
  refine ⟨by decide, by decide⟩

/-- C8 amended: the degree normalizer returns one of the four hierarchy
values `{phd, masters, bachelors, associate}` — chosen by substring
containment where the first matching rule set wins, in the priority order
phd > masters > bachelors > associate — or, when no rule set matches, the
lowercased input string itself (not a fixed value "other"). -/
theorem c8_degree_normalization_amended :
    ∀ s : String,
      (normalizeDegree s = "phd" ∨ normalizeDegree s = "masters" ∨
       normalizeDegree s = "bachelors" ∨ normalizeDegree s = "associate" ∨
       normalizeDegree s = pyLower s) ∧
      (phdTerms.any (fun t => pyInStr t (pyLower s)) = true →
        normalizeDegree s = "phd") ∧
      (phdTerms.any (fun t => pyInStr t (pyLower s)) = false →
       mastersTerms.any (fun t => pyInStr t (pyLower s)) = true →
        normalizeDegree s = "masters") ∧
      (phdTerms.any (fun t => pyInStr t (pyLower s)) = false →
       mastersTerms.any (fun t => pyInStr t (pyLower s)) = false →
       bachelorsTerms.any (fun t => pyInStr t (pyLower s)) = true →
        normalizeDegree s = "bachelors") ∧
      (phdTerms.any (fun t => pyInStr t (pyLower s)) = false →
       mastersTerms.any (fun t => pyInStr t (pyLower s)) = false →
       bachelorsTerms.any (fun t => pyInStr t (pyLower s)) = false →
       associateTerms.any (fun t => pyInStr t (pyLower s)) = true →
        normalizeDegree s = "associate") ∧
      (phdTerms.any (fun t => pyInStr t (pyLower s)) = false →
       mastersTerms.any (fun t => pyInStr t (pyLower s)) = false →
       bachelorsTerms.any (fun t => pyInStr t (pyLower s)) = false →
       associateTerms.any (fun t => pyInStr t (pyLower s)) = false →
        normalizeDegree s = pyLower s) := by
  intro s
  rcases Bool.eq_false_or_eq_true
      (phdTerms.any fun t => pyInStr t (pyLower s)) with h1 | h1
  · simp [normalizeDegree, h1]
  · rcases Bool.eq_false_or_eq_true
        (mastersTerms.any fun t => pyInStr t (pyLower s)) with h2 | h2
    · simp [normalizeDegree, h1, h2]
    · rcases Bool.eq_false_or_eq_true
          (bachelorsTerms.any fun t => pyInStr t (pyLower s)) with h3 | h3
      · simp [normalizeDegree, h1, h2, h3]
      · rcases Bool.eq_false_or_eq_true
            (associateTerms.any fun t => pyInStr t (pyLower s)) with h4 | h4
        · simp [normalizeDegree, h1, h2, h3, h4]
        · simp [normalizeDegree, h1, h2, h3, h4]

/-- C8 witness: the amended theorem applied at "MBA", whose lowercase form
matches a masters rule term and no phd term, yields "masters". -/
theorem c8_degree_normalization_witness :
    normalizeDegree "MBA" = "masters" :=
  (c8_degree_normalization_amended "MBA").2.2.1 (by decide) (by decide)

/-! ## Claim C9 — the per-category MatchDetail invariant -/

/-- The invariant claimed for every category result: a floored positive
total, a matched count bounded by it, and the exact percentage formula
(which forces the percentage into [0, 100]). -/
def MatchInvariant (matched total : ℕ) (pct : ℚ) : Prop :=
  1 ≤ total ∧ matched ≤ total ∧
  pct = (matched : ℚ) / (total : ℚ) * 100 ∧ 0 ≤ pct ∧ pct ≤ 100

theorem matchInvariant_mk (matched total : ℕ) (pct : ℚ)
    (h1 : 1 ≤ total) (h2 : matched ≤ total)
    (h3 : pct = (matched : ℚ) / (total : ℚ) * 100) :
    MatchInvariant matched total pct := by
  have ht : (0 : ℚ) < (total : ℚ) := by exact_mod_cast h1
  have hmt : (matched : ℚ) ≤ (total : ℚ) := by exact_mod_cast h2
  refine ⟨h1, h2, h3, ?_, ?_⟩
  · rw [h3]
    positivity
  · rw [h3, div_mul_eq_mul_div, div_le_iff₀ ht]
    nlinarith

theorem matchExperience_percentage_def (resume : ResumeStructuredData)
    (jd : JDStructuredData) :
    (matchExperience resume jd).match_percentage =
      ((matchExperience resume jd).matched : ℚ) / 3 * 100 := rfl

theorem matchEducationCerts_percentage_def (resume : ResumeStructuredData)
    (jd : JDStructuredData) :
    (matchEducationCerts resume jd).match_percentage =
      if 0 < (matchEducationCerts resume jd).total_required then
        ((matchEducationCerts resume jd).matched : ℚ) /
          ((matchEducationCerts resume jd).total_required : ℚ) * 100
      else 0 := rfl

theorem matchAchievements_percentage_def (resume : ResumeStructuredData)
    (jd : JDStructuredData) :
    (matchAchievements resume jd).match_percentage =
      if 0 < (matchAchievements resume jd).total_required then
        ((matchAchievements resume jd).matched : ℚ) /
          ((matchAchievements resume jd).total_required : ℚ) * 100
      else 0 := rfl

theorem matchSoftSkills_percentage_def (resume : ResumeStructuredData)
    (jd : JDStructuredData) :
    (matchSoftSkills resume jd).match_percentage =
      if 0 < (matchSoftSkills resume jd).total_required then
        ((matchSoftSkills resume jd).matched : ℚ) /
          ((matchSoftSkills resume jd).total_required : ℚ) * 100
      else 0 := rfl

/-- A floored total `|K|`-or-1 is always positive. -/
theorem floored_total_pos (K : Finset String) :
    1 ≤ (if K.Nonempty then K.card else 1) := by
  split_ifs with h
  · exact Finset.card_pos.mpr h
  · exact le_refl 1

/-- An intersection with `K` never has more elements than the floored total
`|K|`-or-1. -/
theorem inter_card_le_floored (S K : Finset String) :
    (S ∩ K).card ≤ (if K.Nonempty then K.card else 1) := by
  split_ifs with h
  · exact Finset.card_le_card Finset.inter_subset_right
  · rw [Finset.not_nonempty_iff_eq_empty.mp h]
    simp

theorem skills_match_invariant (resume : ResumeStructuredData)
    (jd : JDStructuredData) :
    MatchInvariant (matchSkills resume jd).matched
      (matchSkills resume jd).total_required
      (matchSkills resume jd).match_percentage := by
  have h1 : 1 ≤ (matchSkills resume jd).total_required :=
    floored_total_pos (jdRequiredSkillsSet jd ∪ jdPreferredSkillsSet jd)
  have h2 : (matchSkills resume jd).matched ≤
      (matchSkills resume jd).total_required :=
    inter_card_le_floored (resumeSkillsSet resume)
      (jdRequiredSkillsSet jd ∪ jdPreferredSkillsSet jd)
  refine matchInvariant_mk _ _ _ h1 h2 ?_
  rw [matchSkills_percentage_def,
    if_pos (Nat.lt_of_lt_of_le Nat.zero_lt_one h1)]

theorem experience_match_invariant (resume : ResumeStructuredData)
    (jd : JDStructuredData) :
    MatchInvariant (matchExperience resume jd).matched
      (matchExperience resume jd).total_required
      (matchExperience resume jd).match_percentage := by
  have ht : (matchExperience resume jd).total_required = 3 := rfl
  have h2 : (matchExperience resume jd).matched ≤ 3 := by
    simp only [matchExperience]
    split_ifs <;> norm_num
  refine matchInvariant_mk _ _ _ (by rw [ht]; norm_num) (by rw [ht]; exact h2)
    ?_
  rw [matchExperience_percentage_def, ht]
  norm_num

theorem education_match_invariant (resume : ResumeStructuredData)
    (jd : JDStructuredData) :
    MatchInvariant (matchEducationCerts resume jd).matched
      (matchEducationCerts resume jd).total_required
      (matchEducationCerts resume jd).match_percentage := by
  have h1 : 1 ≤ (matchEducationCerts resume jd).total_required := by
    show 1 ≤ 1 + (extractCertKeywords (pyLower (pyJoin
      [jd.required_qualifications.education.getD "",
       jd.preferred_qualifications.education.getD "",
       pyJoin jd.other_information.bonus_qualifications]))).card
    exact Nat.le_add_right 1 _
  have h2 : (matchEducationCerts resume jd).matched ≤
      (matchEducationCerts resume jd).total_required := by
    simp only [matchEducationCerts]
    refine Nat.add_le_add ?_ (Finset.card_filter_le _ _)
    split_ifs <;> norm_num
  refine matchInvariant_mk _ _ _ h1 h2 ?_
  rw [matchEducationCerts_percentage_def,
    if_pos (Nat.lt_of_lt_of_le Nat.zero_lt_one h1)]

theorem achievements_match_invariant (resume : ResumeStructuredData)
    (jd : JDStructuredData) :
    MatchInvariant (matchAchievements resume jd).matched
      (matchAchievements resume jd).total_required
      (matchAchievements resume jd).match_percentage := by
  have h1 : 1 ≤ (matchAchievements resume jd).total_required :=
    floored_total_pos (extractKeywordsFromList jd.job_duties)
  have h2 : (matchAchievements resume jd).matched ≤
      (matchAchievements resume jd).total_required := by
    simp only [matchAchievements]
    exact inter_card_le_floored _ _
  refine matchInvariant_mk _ _ _ h1 h2 ?_
  rw [matchAchievements_percentage_def,
    if_pos (Nat.lt_of_lt_of_le Nat.zero_lt_one h1)]

theorem soft_skills_match_invariant (resume : ResumeStructuredData)
    (jd : JDStructuredData) :
    MatchInvariant (matchSoftSkills resume jd).matched
      (matchSoftSkills resume jd).total_required
      (matchSoftSkills resume jd).match_percentage := by
  have h1 : 1 ≤ (matchSoftSkills resume jd).total_required := by
    simp only [matchSoftSkills]
    exact floored_total_pos _
  have h2 : (matchSoftSkills resume jd).matched ≤
      (matchSoftSkills resume jd).total_required := by
    simp only [matchSoftSkills]
    exact inter_card_le_floored _ _
  refine matchInvariant_mk _ _ _ h1 h2 ?_
  rw [matchSoftSkills_percentage_def,
    if_pos (Nat.lt_of_lt_of_le Nat.zero_lt_one h1)]

/-- C9: for every résumé/JD pair, all five category results of
`calculate_matches` satisfy `total_required ≥ 1`,
`matched ≤ total_required`, and
`match_percentage = matched / total_required * 100`, hence the percentage
lies in [0, 100]. -/
theorem c9_match_detail_invariant (resume : ResumeStructuredData)
    (jd : JDStructuredData) :
    MatchInvariant (calculateMatches resume jd).skills_match.matched
      (calculateMatches resume jd).skills_match.total_required
      (calculateMatches resume jd).skills_match.match_percentage ∧
    MatchInvariant (calculateMatches resume jd).experience_alignment.matched
      (calculateMatches resume jd).experience_alignment.total_required
      (calculateMatches resume jd).experience_alignment.match_percentage ∧
    MatchInvariant
      (calculateMatches resume jd).education_and_certifications.matched
      (calculateMatches resume jd).education_and_certifications.total_required
      (calculateMatches resume
        jd).education_and_certifications.match_percentage ∧
    MatchInvariant
      (calculateMatches resume jd).achievements_and_outcomes.matched
      (calculateMatches resume jd).achievements_and_outcomes.total_required
      (calculateMatches resume jd).achievements_and_outcomes.match_percentage ∧
    MatchInvariant (calculateMatches resume jd).soft_skills_and_culture.matched
      (calculateMatches resume jd).soft_skills_and_culture.total_required
      (calculateMatches resume
        jd).soft_skills_and_culture.match_percentage :=
  ⟨skills_match_invariant resume jd, experience_match_invariant resume jd,
   education_match_invariant resume jd, achievements_match_invariant resume jd,
   soft_skills_match_invariant resume jd⟩

/-! ## Pipeline claims C3–C6 and C10 -/

/-- When the cache check fails, `generate_stream` runs the fresh-analysis
body. -/
theorem generateStream_eq_fresh (env : Env) (h : cacheHit env = false) :
    generateStream env = runFreshAnalysis env := by
  unfold cacheHit at h
  rcases henv : env.existingAnalyses with _ | ⟨row, rest⟩
  · simp [generateStream, henv]
  · rcases hrep : row.report with _ | rep
    · simp [generateStream, henv, hrep]
    · simp only [henv, hrep, Option.isSome_some, Bool.and_true,
        beq_eq_false_iff_ne] at h
      simp [generateStream, henv, hrep, h]

/-- C3: when the pre-run lookup returns first a record with
`status = completed` and a non-empty report, the stream is exactly the
reconstructed `complete` event plus the terminator, and the only external
operation is the lookup itself — no insert, no matching/scoring, no
enrichment calls, no update. -/
theorem c3_cache_hit_idempotence (env : Env) (row : AnalysisRow)
    (rest : List AnalysisRow) (report : Report)
    (hrows : env.existingAnalyses = row :: rest)
    (hstatus : row.status = "completed")
    (hreport : row.report = some report) :
    generateStream env =
      ([Event.complete (cacheCompleteData row.id report), Event.done],
       [Op.selectAnalyses]) := by
  simp [generateStream, hrows, hreport, hstatus]

/-- A stored report used by the concrete cache-hit fixtures. -/
def exampleReport : Report :=
  { overall_score := 85
    fit_classification := "GOOD_FIT"
    fit_rationale := "strong skills overlap"
    category_scores := [("skills_match", 100)]
    recommendations := ["tailor the summary"]
    learning_resources := [] }

/-- An environment whose first stored record is completed with a report. -/
def cacheHitEnv : Env :=
  { existingAnalyses := [⟨"analysis-1", "completed", some exampleReport⟩]
    insertResult := .ok none
    resumesResult := .ok []
    jdsResult := .ok []
    markdownResult := .ok ""
    rationaleResult := .ok ""
    recsResult := .ok []
    learningResult := .ok []
    updateCompletedResult := .ok ()
    updateErrorResult := .ok () }

/-- C3 witness: the cache-hit theorem at a concrete environment. -/
theorem c3_cache_hit_idempotence_witness :
    generateStream cacheHitEnv =
      ([Event.complete (cacheCompleteData "analysis-1" exampleReport),
        Event.done],
       [Op.selectAnalyses]) :=
  c3_cache_hit_idempotence cacheHitEnv
    ⟨"analysis-1", "completed", some exampleReport⟩ [] exampleReport
    rfl rfl rfl

/-- C4: when the rationale and learning-resource generators both fail while
the recommendation generator returns a non-empty list, the run still ends
in the terminal `complete` event carrying an empty rationale, an empty
learning-resource list and the non-empty recommendations, and the record is
updated to `completed`, never to `error`. -/
theorem c4_partial_enrichment_resilience (env : Env) (row : AnalysisRow)
    (resumeRow : ResumeRow) (resumesRest : List ResumeRow) (jdRow : JDRow)
    (jdsRest : List JDRow) (e1 e2 : String) (recs : List String)
    (hcache : cacheHit env = false)
    (hins : env.insertResult = .ok (some row))
    (hres : env.resumesResult = .ok (resumeRow :: resumesRest))
    (hjds : env.jdsResult = .ok (jdRow :: jdsRest))
    (hrat : env.rationaleResult = .error e1)
    (hlr : env.learningResult = .error e2)
    (hrecs : env.recsResult = .ok recs)
    (hne : recs ≠ [])
    (hupd : env.updateCompletedResult = .ok ()) :
    ∃ d : CompleteData,
      (generateStream env).1 =
        [progressStarting, progressCalculating, progressAssessing,
         progressGenerating, progressSaving, Event.complete d, Event.done] ∧
      d.fit_rationale = "" ∧ d.learning_resources = [] ∧
      d.recommendations = recs ∧ d.recommendations ≠ [] ∧
      Op.updateAnalysis "completed" ∈ (generateStream env).2 ∧
      Op.updateAnalysis "error" ∉ (generateStream env).2 := by
  rw [generateStream_eq_fresh env hcache]
  rcases hsp : resumeRow.supabase_storage_path with _ | p <;>
  · simp only [runFreshAnalysis, hins, hres, hjds, hsp, hrat, hlr, hrecs,
      hupd, List.cons_append, List.nil_append]
    refine ⟨_, rfl, rfl, rfl, rfl, hne, ?_, ?_⟩ <;> simp

/-- The environment of the partial-enrichment scenario: both the rationale
and the learning-resource generators fail, recommendations succeed. -/
def partialEnrichmentEnv : Env :=
  { existingAnalyses := []
    insertResult := .ok (some ⟨"analysis-2", "running", none⟩)
    resumesResult := .ok [⟨emptyResume, none⟩]
    jdsResult := .ok [⟨emptyJD⟩]
    markdownResult := .ok ""
    rationaleResult := .error "rationale generator failed"
    recsResult := .ok ["add a summary section"]
    learningResult := .error "learning resource generator failed"
    updateCompletedResult := .ok ()
    updateErrorResult := .ok () }

/-- C4 witness: the resilience theorem at a concrete environment. -/
theorem c4_partial_enrichment_resilience_witness :
    ∃ d : CompleteData,
      (generateStream partialEnrichmentEnv).1 =
        [progressStarting, progressCalculating, progressAssessing,
         progressGenerating, progressSaving, Event.complete d, Event.done] ∧
      d.fit_rationale = "" ∧ d.learning_resources = [] ∧
      d.recommendations = ["add a summary section"] ∧
      d.recommendations ≠ [] ∧
      Op.updateAnalysis "completed" ∈ (generateStream partialEnrichmentEnv).2 ∧
      Op.updateAnalysis "error" ∉ (generateStream partialEnrichmentEnv).2 :=
  c4_partial_enrichment_resilience partialEnrichmentEnv
    ⟨"analysis-2", "running", none⟩ ⟨emptyResume, none⟩ [] ⟨emptyJD⟩ []
    "rationale generator failed" "learning resource generator failed"
    ["add a summary section"] rfl rfl rfl rfl rfl rfl rfl (by simp) rfl

/-- C5: shape characterization of every run. On a cache hit the stream is
only the terminal `complete` (progress 100) plus terminator; otherwise the
stream is one of three shapes — a fatal stop after `starting_analysis`, a
fatal stop after all five progress stages, or all five progress stages
followed by the terminal `complete` with progress 100 — so the five stage
events appear strictly in order `starting_analysis`(30),
`calculating_scores`(60), `assessing_job_fit`(65),
`generating_recommendations`(80), `saving`(90), each at most once, never
out of order, and `complete` only after all five. -/
theorem c5_event_ordering (env : Env) :
    (cacheHit env = true →
      ∃ d : CompleteData, d.progress = 100 ∧
        (generateStream env).1 = [Event.complete d, Event.done]) ∧
    (cacheHit env = false →
      (∃ m, (generateStream env).1 =
         [progressStarting,
          Event.errorEvent m analysisFailedMessage, Event.done]) ∨
      (∃ m, (generateStream env).1 =
         [progressStarting, progressCalculating, progressAssessing,
          progressGenerating, progressSaving,
          Event.errorEvent m analysisFailedMessage, Event.done]) ∨
      (∃ d : CompleteData, d.progress = 100 ∧
        (generateStream env).1 =
          [progressStarting, progressCalculating, progressAssessing,
           progressGenerating, progressSaving, Event.complete d,
           Event.done])) := by
  constructor
  · intro h
    unfold cacheHit at h
    rcases henv : env.existingAnalyses with _ | ⟨row, rest⟩
    · simp [henv] at h
    · rcases hrep : row.report with _ | rep
      · simp [henv, hrep] at h
      · simp only [henv, hrep, Option.isSome_some, Bool.and_true,
          beq_iff_eq] at h
        exact ⟨cacheCompleteData row.id rep, rfl,
          by simp [generateStream, henv, hrep, h]⟩
  · intro h
    rw [generateStream_eq_fresh env h]
    rcases hins : env.insertResult with e | orow
    · exact Or.inl ⟨e, by simp [runFreshAnalysis, hins, fatalExit]⟩
    · rcases orow with _ | row
      · exact Or.inl ⟨"Failed to create analysis record",
          by simp [runFreshAnalysis, hins, fatalExit]⟩
      · rcases hres : env.resumesResult with e | resumes
        · exact Or.inl ⟨e, by simp [runFreshAnalysis, hins, hres, fatalExit]⟩
        · rcases hjds : env.jdsResult with e | jds
          · exact Or.inl ⟨e,
              by simp [runFreshAnalysis, hins, hres, hjds, fatalExit]⟩
          · rcases resumes with _ | ⟨resumeRow, resumesRest⟩
            · exact Or.inl ⟨"Resume or JD not found in database",
                by rcases jds with _ | ⟨jdRow, jdsRest⟩ <;>
                  simp [runFreshAnalysis, hins, hres, hjds, fatalExit]⟩
            · rcases jds with _ | ⟨jdRow, jdsRest⟩
              · exact Or.inl ⟨"Resume or JD not found in database",
                  by simp [runFreshAnalysis, hins, hres, hjds, fatalExit]⟩
              · rcases hupd : env.updateCompletedResult with e | u
                · refine Or.inr (Or.inl ⟨e, ?_⟩)
                  rcases hsp : resumeRow.supabase_storage_path with _ | p <;>
                    simp [runFreshAnalysis, hins, hres, hjds, hsp, hupd,
                      fatalExit]
                · refine Or.inr (Or.inr ?_)
                  rcases hsp : resumeRow.supabase_storage_path with _ | p <;>
                  · simp only [runFreshAnalysis, hins, hres, hjds, hsp, hupd,
                      List.cons_append, List.nil_append]
                    exact ⟨_, rfl, rfl⟩

/-- C5 witness: the characterization applied to the concrete
partial-enrichment environment, which is not a cache hit. -/
theorem c5_event_ordering_witness :
    (∃ m, (generateStream partialEnrichmentEnv).1 =
       [progressStarting,
        Event.errorEvent m analysisFailedMessage, Event.done]) ∨
    (∃ m, (generateStream partialEnrichmentEnv).1 =
       [progressStarting, progressCalculating, progressAssessing,
        progressGenerating, progressSaving,
        Event.errorEvent m analysisFailedMessage, Event.done]) ∨
    (∃ d : CompleteData, d.progress = 100 ∧
      (generateStream partialEnrichmentEnv).1 =
        [progressStarting, progressCalculating, progressAssessing,
         progressGenerating, progressSaving, Event.complete d,
         Event.done]) :=
  (c5_event_ordering partialEnrichmentEnv).2 rfl

/-- C6: when the initial insert of the analysis record raises or returns no
record (and the cache did not hit), the stream is exactly the
`starting_analysis` progress event, one terminal error event and the
terminator — no complete event, no later progress — and the operations stop
at the insert: in particular no record update is ever attempted. -/
theorem c6_fatal_record_creation (env : Env)
    (hcache : cacheHit env = false)
    (hins : (∃ e, env.insertResult = .error e) ∨
      env.insertResult = .ok none) :
    (∃ m, (generateStream env).1 =
       [progressStarting, Event.errorEvent m analysisFailedMessage,
        Event.done]) ∧
    (generateStream env).2 = [Op.selectAnalyses, Op.insertAnalysis] := by
  rw [generateStream_eq_fresh env hcache]
  rcases hins with ⟨e, he⟩ | he
  · exact ⟨⟨e, by simp [runFreshAnalysis, he, fatalExit]⟩,
      by simp [runFreshAnalysis, he, fatalExit]⟩
  · exact ⟨⟨"Failed to create analysis record",
      by simp [runFreshAnalysis, he, fatalExit]⟩,
      by simp [runFreshAnalysis, he, fatalExit]⟩

/-- An environment whose record-store insert raises. -/
def insertFailEnv : Env :=
  { existingAnalyses := []
    insertResult := .error "record store unavailable"
    resumesResult := .ok []
    jdsResult := .ok []
    markdownResult := .ok ""
    rationaleResult := .ok ""
    recsResult := .ok []
    learningResult := .ok []
    updateCompletedResult := .ok ()
    updateErrorResult := .ok () }

/-- C6 witness: the fatal-creation theorem at a concrete environment. -/
theorem c6_fatal_record_creation_witness :
    (∃ m, (generateStream insertFailEnv).1 =
       [progressStarting, Event.errorEvent m analysisFailedMessage,
        Event.done]) ∧
    (generateStream insertFailEnv).2 =
      [Op.selectAnalyses, Op.insertAnalysis] :=
  c6_fatal_record_creation insertFailEnv rfl
    (Or.inl ⟨"record store unavailable", rfl⟩)

/-- A store state holding two records for the triple: the first one still
`running` without a report, a later one `completed` with a report. -/
def staleFirstEnv : Env :=
  { existingAnalyses :=
      [⟨"analysis-3", "running", none⟩,
       ⟨"analysis-4", "completed", some exampleReport⟩]
    insertResult := .ok (some ⟨"analysis-5", "running", none⟩)
    resumesResult := .ok [⟨emptyResume, none⟩]
    jdsResult := .ok [⟨emptyJD⟩]
    markdownResult := .ok ""
    rationaleResult := .ok "borderline fit"
    recsResult := .ok ["add measurable outcomes"]
    learningResult := .ok []
    updateCompletedResult := .ok ()
    updateErrorResult := .ok () }

/-- C10: the cache check inspects only the first returned record. In a
store state where a later record is completed with a report but the first
is not, the run does not short-circuit: it inserts a fresh running record,
runs the scoring calls, and emits the full five-stage stream ending in a
fresh terminal `complete` event. -/
theorem c10_cache_checks_first_record_only :
    (staleFirstEnv.existingAnalyses.any fun row =>
       row.status == "completed" && row.report.isSome) = true ∧
    cacheHit staleFirstEnv = false ∧
    Op.insertAnalysis ∈ (generateStream staleFirstEnv).2 ∧
    Op.calcScores ∈ (generateStream staleFirstEnv).2 ∧
    (∃ d : CompleteData,
      (generateStream staleFirstEnv).1 =
        [progressStarting, progressCalculating, progressAssessing,
         progressGenerating, progressSaving, Event.complete d,
         Event.done]) := by
  have hops : (generateStream staleFirstEnv).2 =
      [Op.selectAnalyses, Op.insertAnalysis, Op.selectResumes, Op.selectJds,
       Op.calcScores, Op.getMatchDetails, Op.genRationale,
       Op.genRecommendations, Op.genLearningResources,
       Op.updateAnalysis "completed"] := rfl
  refine ⟨rfl, rfl, ?_, ?_, ⟨_, rfl⟩⟩ <;> rw [hops] <;> simp

end ResAlign
